import Mathlib

/-!
Shallow embedding of the ElementAstro calculator: a tokenizer, a
precedence-climbing evaluating parser, a symbol table and an error
taxonomy, generic over the numeric value type.  The repository ships the
core as a single header used by the tests, examples and benchmarks under
`src/`; the header itself is not present there, so the definitions below
are modelled from the repository's specification (spec.md), with the
concrete behaviors pinned by the test suite `src/test/main.cpp` taken as
authoritative where the two disagree (the tests exercise the real
implementation).

Two numeric instantiations are provided:
* `Calculator.intOps`  — models `eval<int>` (32-bit signed C `int`);
  arithmetic is exact integer arithmetic (the claims never overflow),
  bitwise operators use 32-bit two's complement, division and modulo
  truncate toward zero.
* `Calculator.ratOps`  — models the floating-point instantiations
  (`float`/`double`) with exact rationals; IEEE rounding is not modelled,
  which is sound for the claims below since they only touch values that
  are exact in binary floating point or error paths that never inspect a
  rounded value.
-/

namespace Calculator

/-- Modelled from the spec: the error taxonomy of section 7 (syntax error,
malformed numeric literal, number too large, literal type mismatch,
division by zero, unsupported operator for the type, undefined variable,
undefined function), plus the explicit recursion-depth guard that section 5
sanctions ("an explicit depth counter raising an error").  Message text and
source offsets are omitted; only the category and the offending name are
kept. -/
inductive CalcError where
  | syntaxError : CalcError
  | unexpectedEnd : CalcError
  | malformedNumber : CalcError
  | numberTooLarge : CalcError
  | typeMismatch : CalcError
  | divisionByZero : CalcError
  | unsupportedOperator : CalcError
  | undefinedVariable (name : String) : CalcError
  | undefinedFunction (name : String) : CalcError
  | depthExceeded : CalcError
  deriving DecidableEq, Repr

/-- Modelled from the spec: a pre-parsed numeric literal as produced by the
tokenizer (section 4.1).  `mantissa` is the value of all digits with the
decimal point removed, `fracDigits` the number of digits after the point,
`exp` the signed exponent value; hex literals carry their value in
`mantissa`.  Conversion to the requested numeric type happens later,
per type. -/
structure NumLit where
  mantissa : Nat
  fracDigits : Nat
  hasDot : Bool
  exp : Int
  hasExp : Bool
  isHex : Bool
  deriving DecidableEq, Repr

/-- Modelled from the spec: the operator alphabet
`+ - * / % ** | & ^ << >> ~` of section 3. -/
inductive BinOp where
  | plus | minus | star | slash | percent | pow
  | bor | bxor | band | shl | shr | tilde
  deriving DecidableEq, Repr

/-- Modelled from the spec: lexical tokens (section 3): numbers,
identifiers, operators and parentheses.  End of input is represented by
the end of the token list. -/
inductive Tok where
  | num (lit : NumLit) : Tok
  | ident (name : String) : Tok
  | op (o : BinOp) : Tok
  | lparen : Tok
  | rparen : Tok
  deriving DecidableEq, Repr

/-- Whitespace skipped between tokens: space, tab, newline, carriage
return, vertical tab (spec section 4.1). -/
def isWhite (c : Char) : Bool :=
  c = ' ' || c = '\t' || c = '\n' || c = '\r' || c.toNat = 11

/-- Value of a hexadecimal digit, `none` for a non-hex-digit. -/
def hexVal (c : Char) : Option Nat :=
  if c.isDigit then some (c.toNat - 48)
  else if 97 ≤ c.toNat && c.toNat ≤ 102 then some (c.toNat - 87)
  else if 65 ≤ c.toNat && c.toNat ≤ 70 then some (c.toNat - 55)
  else none

/-- Consume a run of decimal digits, returning the accumulated value, the
number of digits consumed and the rest of the input. -/
def takeDigits : List Char → Nat → Nat → Nat × Nat × List Char
  | [], acc, n => (acc, n, [])
  | c :: cs, acc, n =>
    if c.isDigit then takeDigits cs (acc * 10 + (c.toNat - 48)) (n + 1)
    else (acc, n, c :: cs)

/-- Consume a run of hexadecimal digits, returning the accumulated value,
the number of digits consumed and the rest of the input. -/
def takeHex : List Char → Nat → Nat → Nat × Nat × List Char
  | [], acc, n => (acc, n, [])
  | c :: cs, acc, n =>
    match hexVal c with
    | some d => takeHex cs (acc * 16 + d) (n + 1)
    | none => (acc, n, c :: cs)

/-- Consume the tail of an identifier: ASCII letters, digits and
underscores (spec section 4.1). -/
def takeIdent : List Char → List Char → String × List Char
  | [], acc => (String.mk acc.reverse, [])
  | c :: cs, acc =>
    if c.isAlphanum || c = '_' then takeIdent cs (c :: acc)
    else (String.mk acc.reverse, c :: cs)

/-- Modelled from the spec: the exponent part of a decimal literal — the
digits after `e`/`E` and an optional sign; an exponent marker with no
following digits is malformed (section 4.1). -/
def lexExpDigits (mant frac : Nat) (hasDot : Bool) (sign : Int)
    (cs : List Char) : Except CalcError (NumLit × List Char) :=
  let (e, n, rest) := takeDigits cs 0 0
  if n = 0 then .error .malformedNumber
  else .ok (⟨mant, frac, hasDot, sign * (e : Int), true, false⟩, rest)

/-- Modelled from the spec: optional `e`/`E` exponent with optional sign
after the mantissa of a decimal literal (section 4.1). -/
def lexExp (mant frac : Nat) (hasDot : Bool) (cs : List Char) :
    Except CalcError (NumLit × List Char) :=
  match cs with
  | c :: rest =>
    if c = 'e' || c = 'E' then
      match rest with
      | s :: rest2 =>
        if s = '+' then lexExpDigits mant frac hasDot 1 rest2
        else if s = '-' then lexExpDigits mant frac hasDot (-1) rest2
        else lexExpDigits mant frac hasDot 1 rest
      | [] => .error .malformedNumber
    else .ok (⟨mant, frac, hasDot, 0, false, false⟩, c :: rest)
  | [] => .ok (⟨mant, frac, hasDot, 0, false, false⟩, [])

/-- Modelled from the spec: a decimal literal — digits, an optional `.`
that must be followed by at least one digit, and an optional exponent
(section 4.1). -/
def lexDecimal (cs : List Char) : Except CalcError (NumLit × List Char) :=
  let (m1, _, r1) := takeDigits cs 0 0
  match r1 with
  | '.' :: r2 =>
    let (m2, n2, r3) := takeDigits r2 0 0
    if n2 = 0 then .error .malformedNumber
    else lexExp (m1 * 10 ^ n2 + m2) n2 true r3
  | _ => lexExp m1 0 false r1

/-- Modelled from the spec: a numeric literal starting at a digit: either
`0x`/`0X` followed by one or more hex digits (zero hex digits after the
prefix is an error), or a decimal literal (section 4.1). -/
def lexNumber (cs : List Char) : Except CalcError (NumLit × List Char) :=
  match cs with
  | '0' :: c :: rest =>
    if c = 'x' || c = 'X' then
      let (v, n, rest2) := takeHex rest 0 0
      if n = 0 then .error .malformedNumber
      else .ok (⟨v, 0, false, 0, false, true⟩, rest2)
    else lexDecimal cs
  | _ => lexDecimal cs

/-- Single-character operator tokens (spec section 4.1). -/
def charOp : Char → Option BinOp
  | '+' => some .plus
  | '-' => some .minus
  | '/' => some .slash
  | '%' => some .percent
  | '|' => some .bor
  | '&' => some .band
  | '^' => some .bxor
  | '~' => some .tilde
  | _ => none

/-- Modelled from the spec: the tokenizer (section 4.1).  Skips whitespace
runs, lexes numeric literals and identifiers (which must start with an
ASCII letter — a leading underscore is deliberately not a valid identifier
start), recognizes `**`, `<<`, `>>` greedily and the single-character
operators and parentheses; any other character is a syntax error.  The
whole input is tokenized up front (the C++ tokenizer is pull-based, which
is observationally equivalent for a single parse); `fuel` bounds the scan
and is instantiated with the input length plus one, which every step
consuming at least one character respects. -/
def tokenizeRun : Nat → List Char → Except CalcError (List Tok)
  | 0, _ => .error .depthExceeded
  | _ + 1, [] => .ok []
  | fuel + 1, c :: cs =>
    if isWhite c then tokenizeRun fuel cs
    else if c.isDigit then do
      let (lit, rest) ← lexNumber (c :: cs)
      let ts ← tokenizeRun fuel rest
      .ok (Tok.num lit :: ts)
    else if c.isAlpha then
      let (name, rest) := takeIdent cs [c]
      do
        let ts ← tokenizeRun fuel rest
        .ok (Tok.ident name :: ts)
    else if c = '*' then
      match cs with
      | '*' :: cs2 => do
        let ts ← tokenizeRun fuel cs2
        .ok (Tok.op .pow :: ts)
      | _ => do
        let ts ← tokenizeRun fuel cs
        .ok (Tok.op .star :: ts)
    else if c = '<' then
      match cs with
      | '<' :: cs2 => do
        let ts ← tokenizeRun fuel cs2
        .ok (Tok.op .shl :: ts)
      | _ => .error .syntaxError
    else if c = '>' then
      match cs with
      | '>' :: cs2 => do
        let ts ← tokenizeRun fuel cs2
        .ok (Tok.op .shr :: ts)
      | _ => .error .syntaxError
    else if c = '(' then do
      let ts ← tokenizeRun fuel cs
      .ok (Tok.lparen :: ts)
    else if c = ')' then do
      let ts ← tokenizeRun fuel cs
      .ok (Tok.rparen :: ts)
    else
      match charOp c with
      | some o => do
        let ts ← tokenizeRun fuel cs
        .ok (Tok.op o :: ts)
      | none => .error .syntaxError

/-- Tokenize a whole source string. -/
def tokenize (s : String) : Except CalcError (List Tok) :=
  tokenizeRun (s.length + 1) s.data

/-- Modelled from the spec: the per-type numeric capability record
(section 9 "capability check ... for integral vs floating
instantiations").  Addition, subtraction, multiplication and unary
negation are total; division, modulo, power, the bitwise operators and
bitwise complement may fail (division by zero, operator unsupported for
the type), and literal conversion may fail (type mismatch, number too
large). -/
structure NumOps (T : Type) where
  ofLit : NumLit → Except CalcError T
  add : T → T → T
  sub : T → T → T
  mul : T → T → T
  neg : T → T
  div : T → T → Except CalcError T
  mod : T → T → Except CalcError T
  pow : T → T → Except CalcError T
  band : T → T → Except CalcError T
  bor : T → T → Except CalcError T
  bxor : T → T → Except CalcError T
  shl : T → T → Except CalcError T
  shr : T → T → Except CalcError T
  bnot : T → Except CalcError T

/-- Largest value of a 32-bit signed C `int`. -/
def i32Max : Int := 2147483647

/-- The 32-bit unsigned representative of an `Int`, as two's complement. -/
def toU32 (a : Int) : Nat := (a % (4294967296 : Int)).toNat

/-- Back from the 32-bit unsigned representative to the signed value. -/
def ofU32 (n : Nat) : Int :=
  if n < 2147483648 then (n : Int) else (n : Int) - 4294967296

/-- Integer exponentiation with an integer exponent: repeated
multiplication for a nonnegative exponent; a negative exponent yields the
truncation of the exact power toward zero (1 for base 1, ±1 for base -1,
otherwise 0). -/
def ipow (a : Int) (b : Int) : Int :=
  if 0 ≤ b then a ^ b.toNat
  else if a = 1 then 1
  else if a = -1 then (if b % 2 = 0 then 1 else -1)
  else 0

/-- Modelled from the spec: the integral instantiation (C `int`, 32-bit
signed).  Literals containing `.` are a type mismatch for an integral
result type; exponent literals are legal for an integral type and are
evaluated integrally (the test suite pins `eval<int>("1e3") == 1000`,
`eval<int>("1E+2") == 100`), a negative exponent being a type mismatch; a
literal exceeding the type's range is a "number too large" error.
Division and modulo check the right operand for exact zero and otherwise
truncate toward zero (C semantics, `Int.tdiv`/`Int.tmod`); the bitwise
operators act on the 32-bit two's-complement representation; `>>` is an
arithmetic shift (floor division by a power of two). -/
def intOps : NumOps Int where
  ofLit lit :=
    if lit.isHex then
      if (lit.mantissa : Int) ≤ i32Max then .ok (lit.mantissa : Int)
      else .error .numberTooLarge
    else if lit.hasDot then .error .typeMismatch
    else if lit.hasExp && lit.exp < 0 then .error .typeMismatch
    else
      let v : Int := (lit.mantissa : Int) * 10 ^ lit.exp.toNat
      if v ≤ i32Max then .ok v else .error .numberTooLarge
  add a b := a + b
  sub a b := a - b
  mul a b := a * b
  neg a := -a
  div a b := if b = 0 then .error .divisionByZero else .ok (a.tdiv b)
  mod a b := if b = 0 then .error .divisionByZero else .ok (a.tmod b)
  pow a b := .ok (ipow a b)
  band a b := .ok (ofU32 (Nat.land (toU32 a) (toU32 b)))
  bor a b := .ok (ofU32 (Nat.lor (toU32 a) (toU32 b)))
  bxor a b := .ok (ofU32 (Nat.xor (toU32 a) (toU32 b)))
  shl a b := .ok (ofU32 ((toU32 a <<< b.toNat) % 4294967296))
  shr a b := .ok (Int.fdiv a (2 ^ b.toNat))
  bnot a := .ok (ofU32 (Nat.xor (toU32 a) 4294967295))

/-- Modelled from the spec: the floating instantiation (`float`/`double`),
with exact rationals standing in for IEEE values.  Modulo, the bitwise
operators and bitwise complement are not legal for a floating type and
fail with the unsupported-operator error at evaluation time (section 4.2);
division checks the right operand for exact zero; power is exact for an
integral exponent (the native floating power at a non-integral exponent is
irrational in general, hence not representable in this rational model, and
is mapped to the unsupported-operator error — no claim below exercises
it). -/
def ratOps : NumOps ℚ where
  ofLit lit :=
    if lit.isHex then .ok (lit.mantissa : ℚ)
    else .ok ((lit.mantissa : ℚ) / (10 : ℚ) ^ lit.fracDigits * (10 : ℚ) ^ lit.exp)
  add a b := a + b
  sub a b := a - b
  mul a b := a * b
  neg a := -a
  div a b := if b = 0 then .error .divisionByZero else .ok (a / b)
  mod _ _ := .error .unsupportedOperator
  pow a b := if b.den = 1 then .ok (a ^ b.num) else .error .unsupportedOperator
  band _ _ := .error .unsupportedOperator
  bor _ _ := .error .unsupportedOperator
  bxor _ _ := .error .unsupportedOperator
  shl _ _ := .error .unsupportedOperator
  shr _ _ := .error .unsupportedOperator
  bnot _ := .error .unsupportedOperator

/-- Modelled from the spec: a symbol-table binding — a name is bound to
either a stored value or a unary function, never both (the tagged-variant
design of section 9 that makes the mutual exclusivity structural). -/
inductive Entry (T : Type) where
  | var (v : T) : Entry T
  | fn (f : T → T) : Entry T

/-- Modelled from the spec: the symbol table (section 4.3) — a mapping
from names to bindings; `set` prepends and lookup takes the first match,
so the last `set` wins and may move a name between the variable and
function roles. -/
def SymbolTable (T : Type) : Type := List (String × Entry T)

/-- The empty symbol table of a fresh parser or a one-shot `eval` call. -/
def SymbolTable.empty (T : Type) : SymbolTable T := []

/-- Modelled from the spec: `set(name, ...)` inserts or overwrites a
binding, removing any binding of the other role under that name
(section 4.3). -/
def SymbolTable.set {T : Type} (tab : SymbolTable T) (name : String)
    (e : Entry T) : SymbolTable T :=
  (name, e) :: tab

/-- Modelled from the spec: `get_variable(name)` returns the stored value
or signals "not found" (section 4.3); a name bound as a function is not
found as a variable. -/
def SymbolTable.get_variable {T : Type} (tab : SymbolTable T)
    (name : String) : Option T :=
  match List.lookup name tab with
  | some (Entry.var v) => some v
  | _ => none

/-- Modelled from the spec: `get_function(name)` returns the function or
signals "not found" (section 4.3); a name bound as a variable is not found
as a function. -/
def SymbolTable.get_function {T : Type} (tab : SymbolTable T)
    (name : String) : Option (T → T) :=
  match List.lookup name tab with
  | some (Entry.fn f) => some f
  | _ => none

/-- Modelled from the spec: binding strength and associativity of the
binary operators (sections 4.2 and 8): `|` loosest, then `^`, `&`,
`<< >>`, `+ -`, `* / %`, and `**` tightest and the only right-associative
one; `~` is never binary.  Returned as (precedence, right-associative). -/
def binPrec : BinOp → Option (Nat × Bool)
  | .bor => some (1, false)
  | .bxor => some (2, false)
  | .band => some (3, false)
  | .shl => some (4, false)
  | .shr => some (4, false)
  | .plus => some (5, false)
  | .minus => some (5, false)
  | .star => some (6, false)
  | .slash => some (6, false)
  | .percent => some (6, false)
  | .pow => some (7, true)
  | .tilde => none

/-- The binding strength a unary operator gives its operand: the power
level, so that a leading unary on a power's base applies after `**`
(spec section 4.2: `-2 ** 2` means `-(2 ** 2)`) while unary binds tighter
than every other binary operator, and `2 ** -1` means `2 ** (-1)`. -/
def unaryPrec : Nat := 7

/-- Apply a binary operator to two already-evaluated operands using the
type's capability record. -/
def applyBin {T : Type} (ops : NumOps T) : BinOp → T → T →
    Except CalcError T
  | .plus, a, b => .ok (ops.add a b)
  | .minus, a, b => .ok (ops.sub a b)
  | .star, a, b => .ok (ops.mul a b)
  | .slash, a, b => ops.div a b
  | .percent, a, b => ops.mod a b
  | .pow, a, b => ops.pow a b
  | .band, a, b => ops.band a b
  | .bor, a, b => ops.bor a b
  | .bxor, a, b => ops.bxor a b
  | .shl, a, b => ops.shl a b
  | .shr, a, b => ops.shr a b
  | .tilde, _, _ => .error .syntaxError

/-- The mode of one step of the evaluating parser: parse a value (a
primary with its leading unary operators), climb from a minimum binding
strength, or fold further binary operators of at least the minimum
strength into an already-evaluated left operand. -/
inductive PMode (T : Type) where
  | value : PMode T
  | climb (minPrec : Nat) : PMode T
  | fold (minPrec : Nat) (acc : T) : PMode T

/-- Modelled from the spec: the evaluating parser (section 4.2) — a
recursive-descent precedence-climbing parser parameterized by a minimum
binding strength (the design section 9 prescribes) that evaluates each
sub-expression as soon as it is parsed, with no tree.  `value` parses a
number, an identifier (a function call `name(arg)` when directly followed
by `(`, failing with undefined-function for an unbound name, otherwise a
variable lookup failing with undefined-variable), a parenthesized
sub-expression requiring its `)`, or a unary `+`/`-`/`~` whose operand is
parsed at the power level; `climb p` parses a value and then folds binary
operators of precedence at least `p`, a left-associative operator parsing
its right operand one level tighter and the right-associative `**` at its
own level.  `fuel` is the explicit recursion-depth counter sanctioned by
section 5; the entry point supplies fuel proportional to the token count,
ample for every input since every recursive call either consumes a token
or moves one step down the ladder. -/
def parseRun {T : Type} (ops : NumOps T) (tab : SymbolTable T) :
    Nat → PMode T → List Tok → Except CalcError (T × List Tok)
  | 0, _, _ => .error .depthExceeded
  | fuel + 1, .value, ts =>
    match ts with
    | Tok.num lit :: rest => do
      let v ← ops.ofLit lit
      .ok (v, rest)
    | Tok.ident name :: Tok.lparen :: rest => do
      let (arg, ts1) ← parseRun ops tab fuel (.climb 1) rest
      match ts1 with
      | Tok.rparen :: ts2 =>
        match tab.get_function name with
        | some f => .ok (f arg, ts2)
        | none => .error (.undefinedFunction name)
      | _ :: _ => .error .syntaxError
      | [] => .error .unexpectedEnd
    | Tok.ident name :: rest =>
      match tab.get_variable name with
      | some v => .ok (v, rest)
      | none => .error (.undefinedVariable name)
    | Tok.lparen :: rest => do
      let (v, ts1) ← parseRun ops tab fuel (.climb 1) rest
      match ts1 with
      | Tok.rparen :: ts2 => .ok (v, ts2)
      | _ :: _ => .error .syntaxError
      | [] => .error .unexpectedEnd
    | Tok.op .plus :: rest => parseRun ops tab fuel (.climb unaryPrec) rest
    | Tok.op .minus :: rest => do
      let (v, ts1) ← parseRun ops tab fuel (.climb unaryPrec) rest
      .ok (ops.neg v, ts1)
    | Tok.op .tilde :: rest => do
      let (v, ts1) ← parseRun ops tab fuel (.climb unaryPrec) rest
      let v2 ← ops.bnot v
      .ok (v2, ts1)
    | Tok.op _ :: _ => .error .syntaxError
    | Tok.rparen :: _ => .error .syntaxError
    | [] => .error .unexpectedEnd
  | fuel + 1, .climb minPrec, ts => do
    let (v, ts1) ← parseRun ops tab fuel .value ts
    parseRun ops tab fuel (.fold minPrec v) ts1
  | fuel + 1, .fold minPrec acc, ts =>
    match ts with
    | Tok.op o :: rest =>
      match binPrec o with
      | some (p, rightAssoc) =>
        if minPrec ≤ p then do
          let (rhs, ts2) ←
            parseRun ops tab fuel (.climb (if rightAssoc then p else p + 1)) rest
          let acc2 ← applyBin ops o acc rhs
          parseRun ops tab fuel (.fold minPrec acc2) ts2
        else .ok (acc, ts)
      | none => .ok (acc, ts)
    | _ => .ok (acc, ts)

/-- Modelled from the spec: evaluate an expression against a symbol table
(`ExpressionParser::eval`): tokenize, parse-and-evaluate the top-level
(bitwise-OR level) expression, and require the entire input to be consumed
— any trailing token after a complete expression is a syntax error
(section 4.2). -/
def evalWith {T : Type} (ops : NumOps T) (tab : SymbolTable T)
    (s : String) : Except CalcError T := do
  let ts ← tokenize s
  let (v, rest) ← parseRun ops tab (4 * (ts.length + 1)) (.climb 1) ts
  match rest with
  | [] => .ok v
  | _ :: _ => .error .syntaxError

/-- Modelled from the spec: the one-shot `calculator::eval<int>(text)`
with an ephemeral empty symbol table (section 6). -/
def evalInt (s : String) : Except CalcError Int :=
  evalWith intOps (SymbolTable.empty Int) s

/-- Modelled from the spec: the one-shot evaluation at a floating result
type (`calculator::eval<double>(text)` in the rational model) with an
ephemeral empty symbol table (section 6). -/
def evalRat (s : String) : Except CalcError ℚ :=
  evalWith ratOps (SymbolTable.empty ℚ) s

end Calculator

open Calculator

/-- Claim C1, counterexample: `eval<int>` of an expression whose literal
carries an exponent marker but no decimal point does not fail — the test
suite pins `eval<int>("1e3") == 1000` (src/test/main.cpp,
PowerAndExponent), so a literal with an exponent requested as an integral
type is evaluated integrally, not rejected. -/
theorem claim_C1_counterexample : evalInt "1e3" = .ok 1000 := rfl

/-- Claim C1, amended: a literal containing a decimal point requested as an
integral result type fails with the type-mismatch error (universally at
the literal-conversion step, and end to end for `eval<int>` of "1.1",
"3.14" and "1 + 1 + 1.1"), while an exponent-only literal is legal for an
integral type and is evaluated integrally (`1e3` is 1000, `1E+2` is
100). -/
theorem claim_C1_dot_literal_rejected :
    (∀ lit : NumLit, lit.isHex = false → lit.hasDot = true →
      intOps.ofLit lit = .error .typeMismatch) ∧
    evalInt "1.1" = .error .typeMismatch ∧
    evalInt "3.14" = .error .typeMismatch ∧
    evalInt "1 + 1 + 1.1" = .error .typeMismatch ∧
    evalInt "1e3" = .ok 1000 ∧
    evalInt "1E+2" = .ok 100 := by
  refine ⟨?_, rfl, rfl, rfl, rfl, rfl⟩
  intro lit h1 h2
  simp [intOps, h1, h2]

/-- Claim C1, witness for the amended theorem's universal conjunct,
instantiated at the pre-parsed literal of "1.1". -/
theorem claim_C1_witness :
    intOps.ofLit ⟨11, 1, true, 0, false, false⟩ = .error .typeMismatch :=
  claim_C1_dot_literal_rejected.1 ⟨11, 1, true, 0, false, false⟩ rfl rfl

/-- Claim C2: the power operator is right-associative, and explicit
parentheses override that grouping: `eval<int>("2 ** 3 ** 2")` is
2 ** (3 ** 2) = 512 and `eval<int>("(2 ** 3) ** 2")` is 64. -/
theorem claim_C2_power_right_assoc :
    evalInt "2 ** 3 ** 2" = .ok 512 ∧
    evalInt "(2 ** 3) ** 2" = .ok 64 :=
  ⟨rfl, rfl⟩

/-- Claim C3, counterexample: unary minus does not bind tighter than `**`
on the power's base — the spec's core-algorithm section mandates
`-2 ** 2` = `-(2 ** 2)` = -4, whereas the claimed ladder
(unary above `**`) would give `(-2) ** 2` = 4. -/
theorem claim_C3_counterexample :
    evalInt "-2 ** 2" = .ok (-4) ∧
    evalInt "(-2) ** 2" = .ok 4 ∧
    evalInt "-(2 ** 2)" = .ok (-4) :=
  ⟨rfl, rfl, rfl⟩

/-- Claim C3, amended: the binary operators bind in the ladder
`**` > `* / %` > `+ -` > `<< >>` > `&` > `^` > `|`, each non-power level
left-associative, and a unary operator binds tighter than every binary
operator except that a leading unary on a power's base applies after `**`
(`-2 ** 2` = `-(2 ** 2)`); in particular `8 >> 1 + 1` is 8 >> (1 + 1) = 2,
`5 | 3 & 1` is 5 | (3 & 1) = 5, and `4 << 1 | 2` is (4 << 1) | 2 = 10.
Each adjacent pair of ladder levels and the left associativity of the
`* / %`, `+ -` and shift levels are checked on concrete expressions. -/
theorem claim_C3_precedence_ladder :
    evalInt "8 >> 1 + 1" = .ok 2 ∧
    evalInt "5 | 3 & 1" = .ok 5 ∧
    evalInt "4 << 1 | 2" = .ok 10 ∧
    evalInt "2 * 3 ** 2" = .ok 18 ∧
    evalInt "2 + 3 * 4" = .ok 14 ∧
    evalInt "2 ^ 4 >> 1" = .ok 0 ∧
    evalInt "1 ^ 2 & 3" = .ok 3 ∧
    evalInt "1 | 2 ^ 3" = .ok 1 ∧
    evalInt "10 - 5 - 2" = .ok 3 ∧
    evalInt "20 / 4 / 2" = .ok 2 ∧
    evalInt "16 % 7 % 3" = .ok 2 ∧
    evalInt "5 + 3 - 2 * 4 / 2 % 3" = .ok 7 :=
  ⟨rfl, rfl, rfl, rfl, rfl, rfl, rfl, rfl, rfl, rfl, rfl, rfl⟩

/-- Claim C4: for the integral instantiation, division and modulo with a
right operand equal to exactly zero fail with the division-by-zero error —
universally at the operator level, and end to end for
`eval<int>("1 / 0")`, `eval<int>("5 % 0")` and
`eval<int>("(2 + 3) / (5 - 5)")`, the last showing that an operand that
merely evaluates to zero is caught. -/
theorem claim_C4_division_by_zero :
    (∀ a : Int, intOps.div a 0 = .error .divisionByZero) ∧
    (∀ a : Int, intOps.mod a 0 = .error .divisionByZero) ∧
    evalInt "1 / 0" = .error .divisionByZero ∧
    evalInt "5 % 0" = .error .divisionByZero ∧
    evalInt "(2 + 3) / (5 - 5)" = .error .divisionByZero := by
  refine ⟨?_, ?_, rfl, rfl, rfl⟩ <;> intro a <;> simp [intOps]

/-- Claim C5: for the floating instantiation, modulo and every bitwise
operator fail with the unsupported-operator error — universally at the
operator level, and end to end for `eval<double>("7.5 % 2.3")` and
`eval<double>("5.5 & 3.2")`; the error is raised at evaluation time, not
at tokenization time: both expressions tokenize successfully. -/
theorem claim_C5_float_unsupported_operators :
    evalRat "7.5 % 2.3" = .error .unsupportedOperator ∧
    evalRat "5.5 & 3.2" = .error .unsupportedOperator ∧
    (∃ ts, tokenize "7.5 % 2.3" = .ok ts) ∧
    (∃ ts, tokenize "5.5 & 3.2" = .ok ts) ∧
    (∀ a b : ℚ, ratOps.mod a b = .error .unsupportedOperator) ∧
    (∀ a b : ℚ, ratOps.band a b = .error .unsupportedOperator) ∧
    (∀ a b : ℚ, ratOps.bor a b = .error .unsupportedOperator) ∧
    (∀ a b : ℚ, ratOps.bxor a b = .error .unsupportedOperator) ∧
    (∀ a b : ℚ, ratOps.shl a b = .error .unsupportedOperator) ∧
    (∀ a b : ℚ, ratOps.shr a b = .error .unsupportedOperator) ∧
    (∀ a : ℚ, ratOps.bnot a = .error .unsupportedOperator) := by
  refine ⟨?_, ?_, ⟨_, rfl⟩, ⟨_, rfl⟩, ?_, ?_, ?_, ?_, ?_, ?_, ?_⟩
  · with_unfolding_all rfl
  · with_unfolding_all rfl
  all_goals intros; rfl

/-- Claim C6: integer division truncates toward zero for all operand
signs: `eval<int>` gives 7 / 3 = 2, -7 / 3 = -2, (-7) / 2 = -3 and
7 / (-2) = -3; universally, division by a nonzero right operand is
truncating division (`Int.tdiv`). -/
theorem claim_C6_truncating_division :
    evalInt "7 / 3" = .ok 2 ∧
    evalInt "-7 / 3" = .ok (-2) ∧
    evalInt "(-7) / 2" = .ok (-3) ∧
    evalInt "7 / (-2)" = .ok (-3) ∧
    (∀ a b : Int, b ≠ 0 → intOps.div a b = .ok (Int.tdiv a b)) := by
  refine ⟨rfl, rfl, rfl, rfl, ?_⟩
  intro a b h
  simp [intOps, h]

/-- Claim C6, witness for the universal conjunct at a = 7, b = -2. -/
theorem claim_C6_witness : intOps.div 7 (-2) = .ok (Int.tdiv 7 (-2)) :=
  claim_C6_truncating_division.2.2.2.2 7 (-2) (by decide)

/-- Claim C7: a leading underscore never starts a valid identifier:
whatever the symbol table holds — even after `set("_invalid", v)` has
bound that very name, and for both the floating and the integral
instantiations — evaluating "_invalid" fails with a syntax error rather
than resolving the binding. -/
theorem claim_C7_leading_underscore_rejected :
    (∀ (v : ℚ) (tab : SymbolTable ℚ),
      evalWith ratOps (SymbolTable.set tab "_invalid" (Entry.var v))
        "_invalid" = .error .syntaxError) ∧
    (∀ tab : SymbolTable ℚ,
      evalWith ratOps tab "_invalid" = .error .syntaxError) ∧
    (∀ (v : Int) (tab : SymbolTable Int),
      evalWith intOps (SymbolTable.set tab "_invalid" (Entry.var v))
        "_invalid" = .error .syntaxError) :=
  ⟨fun _ _ => rfl, fun _ => rfl, fun _ _ => rfl⟩

/-- Claim C8: bindings are mutated only by explicit `set` calls (in this
model `eval` takes the symbol table immutably, so parsing cannot mutate
it), rebinding a name replaces the old value with no caching, and the next
`eval` sees the latest binding: after `set("x", 2.0)`, "x + 3" evaluates
to 5.0; after a further `set("x", 5.0)` on the same parser, "x + 3"
evaluates to 8.0; universally, a variable lookup after `set` returns the
value just stored. -/
theorem claim_C8_set_rebinding :
    evalWith ratOps (SymbolTable.set (SymbolTable.empty ℚ) "x" (Entry.var 2))
      "x + 3" = .ok 5 ∧
    evalWith ratOps
      (SymbolTable.set
        (SymbolTable.set (SymbolTable.empty ℚ) "x" (Entry.var 2))
        "x" (Entry.var 5)) "x + 3" = .ok 8 ∧
    (∀ (T : Type) (tab : SymbolTable T) (name : String) (v : T),
      SymbolTable.get_variable (SymbolTable.set tab name (Entry.var v)) name
        = some v) := by
  refine ⟨?_, ?_, ?_⟩
  · with_unfolding_all rfl
  · with_unfolding_all rfl
  · intro T tab name v
    simp [SymbolTable.get_variable, SymbolTable.set, List.lookup]

/-- Claim C9: on a fresh parser, evaluating a bare unbound identifier
fails with the undefined-variable error while evaluating the same
identifier applied to a parenthesized argument fails with the
undefined-function error, and the two error categories are distinct. -/
theorem claim_C9_undefined_categories :
    evalRat "undefined_name" = .error (.undefinedVariable "undefined_name") ∧
    evalRat "undefined_name(1)"
      = .error (.undefinedFunction "undefined_name") ∧
    (∀ n m : String,
      CalcError.undefinedVariable n ≠ CalcError.undefinedFunction m) := by
  refine ⟨?_, ?_, fun n m h => CalcError.noConfusion h⟩
  · with_unfolding_all rfl
  · with_unfolding_all rfl

/-- Claim C10: unary + and - chain and mix with binary operators without
parentheses — `eval<int>("++5")` is 5 and `eval<int>("5 + + 3")` is 8 —
while the trailing operator sequence "5++" is a syntax error (the input
ends where the second +'s operand should start). -/
theorem claim_C10_unary_chains :
    evalInt "++5" = .ok 5 ∧
    evalInt "5 + + 3" = .ok 8 ∧
    evalInt "5++" = .error .unexpectedEnd :=
  ⟨rfl, rfl, rfl⟩
